import Mathlib

set_option maxHeartbeats 1000000

/-! Shallow embedding of the AI Snake Agents front end (src/App.tsx).

The embedded program is the playback/replay state machine of the React
component App, together with the pure helpers it uses: the seed input
validator of ModelSelect, the render-index computation of Grid, and the
history-row constructor createTableResult.  Machine numbers are modelled
as Nat/Int (the cursor is an Int because the code computes the ceiling
as a possibly negative JavaScript number), strings as String, and the
float ratio avgMove as an exact rational. -/

/-- One discrete simulation frame, mirroring
type GameState = \x7bsnake:number[], fruit:number, won:boolean, died:boolean\x7d. -/
structure GameState where
  snake : List Nat
  fruit : Nat
  won : Bool
  died : Bool
deriving Repr, DecidableEq

/-- Stand-in for the JavaScript undefined obtained when indexing out of
bounds; every use below is guarded exactly as in the source. -/
def defaultGameState : GameState :=
  { snake := [], fruit := 0, won := false, died := false }

/-- One history-table row, mirroring type TableResult. -/
structure TableResult where
  agent : String
  gridSize : String
  train : String
  moveCount : Int
  fruitCount : Int
  finalLength : Int
  avgMove : Rat
  outcome : String
  replay : List GameState
  agentCode : String
  replaySize : Nat
deriving Repr, DecidableEq

/-- The nameMap record of App. -/
def nameMap (a : String) : String :=
  if a = ("a*") then ("A*")
  else if a = ("ql") then ("Q-Learning")
  else if a = ("apx-ql") then ("Approx. QL")
  else if a = ("deep-ql") then ("Deep QL")
  else ("")

/-! ## Seed input validation (ModelSelect.onChange) -/

/-- The regex character class of digits 0-9 (codes 48-57), as tested by
the source regex. -/
def isDig (c : Char) : Bool := decide (48 ≤ c.toNat ∧ c.toNat ≤ 57)

/-- One step of decimal accumulation, as performed by JavaScript
Number(value) on a digit string. -/
def jsNumF (a : Nat) (c : Char) : Nat := a * 10 + (c.toNat - 48)

/-- JavaScript Number(value) restricted to all-digit strings. -/
def jsNum (v : String) : Nat := v.data.foldl jsNumF 0

/-- The onChange handler of the seed input: given the stored seed and the
newly typed value, the seed stored afterwards.  Mirrors the four early
returns of the source (empty clears, non-digits rejected, leading zero
rejected, values above 999 rejected). -/
def acceptSeed (seed v : String) : String :=
  if v = ("") then ("")
  else if v.data.all isDig = false then seed
  else if 1 < v.data.length ∧ (v.data.headD ' ').toNat = 48 then seed
  else if 999 < jsNum v then seed
  else v

/-- The accepted-seed shape claimed by the spec: a digit string matching
the pattern of one to three digits with no leading zero except the bare
zero itself. -/
def seedOk (s : String) : Bool :=
  s.data.all isDig && decide (1 ≤ s.data.length) && decide (s.data.length ≤ 3)
    && (decide (s.data.length ≤ 1) || decide ((s.data.headD ' ').toNat ≠ 48))

/-- The invariant of the stored seed string claimed by the spec: empty,
or a well-formed decimal numeral for an integer in [0, 999]. -/
def seedValid (s : String) : Prop :=
  s = ("") ∨ (seedOk s = true ∧ jsNum s ≤ 999)

/-! ## Grid rendering (component Grid) -/

/-- effectiveStep of Grid: when the cursor runs past the lane, freeze on
the last snapshot. -/
def effectiveStep (timeStep : Int) (gameStates : List GameState) : Int :=
  if (gameStates.length : Int) ≤ timeStep then (gameStates.length : Int) - 1
  else timeStep

/-- Array indexing of the snapshot list at an Int index (guarded uses
only, as in the source). -/
def stateAt (gameStates : List GameState) (k : Int) : GameState :=
  gameStates.getD k.toNat defaultGameState

/-- JavaScript Array.prototype.indexOf: index of the first occurrence,
or -1 when absent. -/
def jsIndexOf (l : List Nat) (x : Nat) : Int :=
  if x ∈ l then (l.indexOf x : Int) else -1

/-- cellClass of Grid: the style class of cell i (wall, fruit, or
checkerboard floor). -/
def cellClass (gridSize : Nat) (timeStep : Int) (gameStates : List GameState)
    (i : Nat) : String :=
  if i / gridSize = 0 ∨ i / gridSize = gridSize - 1
      ∨ i % gridSize = 0 ∨ i % gridSize = gridSize - 1 then
    ("bg-black border-cyan-700/80")
  else if 0 < gameStates.length
      ∧ i = (stateAt gameStates (effectiveStep timeStep gameStates)).fruit then
    ("bg-red-500")
  else if i % 2 ≠ 0 then ("bg-green-500/90")
  else ("bg-green-300")

/-- The snakeIndex computation of generateGrid: position of cell i in the
rendered snapshot body, or -1 when there is no body to draw. -/
def snakeIndex (timeStep : Int) (gameStates : List GameState) (i : Nat) : Int :=
  if gameStates.length = 0 then -1
  else jsIndexOf (stateAt gameStates (effectiveStep timeStep gameStates)).snake i

example : acceptSeed ("12") ("0012") = ("12") := by decide
example : acceptSeed ("12") ("999") = ("999") := by decide
example : acceptSeed ("12") ("1000") = ("12") := by decide
example : effectiveStep 7 [defaultGameState, defaultGameState] = 1 := by decide

/-! ## The App component state -/

/-- The useState cells of App, gathered into one record. -/
structure AppState where
  gridSize : Nat
  twoGrids : Bool
  gameStates1 : List GameState
  gameStates2 : List GameState
  agent1 : String
  agent2 : String
  eps1 : String
  eps2 : String
  seed1 : String
  seed2 : String
  playing : Bool
  loading : Bool
  speed : Nat
  tableRes : List TableResult
  timeStep : Int
deriving Repr, DecidableEq

/-- The initial useState values of App. -/
def initState : AppState :=
  { gridSize := 5, twoGrids := false, gameStates1 := [], gameStates2 := []
    agent1 := ("a*"), agent2 := ("a*"), eps1 := ("N/A"), eps2 := ("N/A")
    seed1 := (""), seed2 := (""), playing := false, loading := false
    speed := 1, tableRes := [], timeStep := 0 }

/-- maxStep of App: the playback ceiling, a JavaScript number that is -1
when both lanes are empty. -/
def maxStep (s : AppState) : Int :=
  (Nat.max s.gameStates1.length s.gameStates2.length : Int) - 1

/-- canStepForward of App. -/
def canStepForward (s : AppState) : Prop := s.timeStep < maxStep s

instance (s : AppState) : Decidable (canStepForward s) := by
  unfold canStepForward; infer_instance

/-- resetBoard of App: clear run data and the clock, keep configuration. -/
def resetBoard (s : AppState) : AppState :=
  { s with playing := false, loading := false, gameStates1 := [],
           gameStates2 := [], timeStep := 0 }

/-- createTableResult of App.  endIndex is the caller-supplied index of
the terminal snapshot; the small floor 1e-9 of the average is kept as an
exact rational. -/
def createTableResult (gridSize : Nat) (agent eps : String) (endIndex : Nat)
    (data : List GameState) : TableResult :=
  let terminal := data.getD endIndex defaultGameState
  { agent := nameMap agent
    gridSize := toString (gridSize - 2) ++ ("x") ++ toString (gridSize - 2)
    train := eps
    moveCount := (endIndex : Int)
    fruitCount := (terminal.snake.length : Int) - 1
    finalLength := (terminal.snake.length : Int)
    avgMove := (endIndex : Rat) / (((terminal.snake.length : Rat) - 1) + 1 / 1000000000)
    outcome := if terminal.won then ("Won") else ("Lost")
    replay := data
    agentCode := agent
    replaySize := gridSize }

/-- loadNewGame of App, from the point where the backend responses
data1 (and data2 when the second lane is on) have arrived: record the
history rows, fill the lanes, reset the clock and start playing. -/
def loadNewGame (s : AppState) (data1 data2 : List GameState) : AppState :=
  let result1 := createTableResult s.gridSize s.agent1 s.eps1 (data1.length - 1) data1
  let s1 := { s with loading := true, tableRes := result1 :: s.tableRes }
  let s2 :=
    if s.twoGrids then
      let result2 := createTableResult s.gridSize s.agent2 s.eps2 (data2.length - 1) data2
      { s1 with tableRes := result2 :: s1.tableRes, gameStates2 := data2 }
    else s1
  { s2 with gameStates1 := data1, loading := false, timeStep := 0, playing := true }

/-- The Grid 1 replay button of a history row. -/
def restoreGrid1 (s : AppState) (res : TableResult) : AppState :=
  let s1 := { s with playing := false }
  let s2 := if s.gridSize ≠ res.replaySize then { s1 with gameStates2 := res.replay } else s1
  { s2 with gridSize := res.replaySize, agent1 := res.agentCode,
            eps1 := res.train, gameStates1 := res.replay, timeStep := 0 }

/-- The Grid 2 replay button of a history row (also turns the second
lane on). -/
def restoreGrid2 (s : AppState) (res : TableResult) : AppState :=
  let s1 := { s with playing := false }
  let s2 := if s.gridSize ≠ res.replaySize then { s1 with gameStates1 := res.replay } else s1
  { s2 with gridSize := res.replaySize, twoGrids := true, agent2 := res.agentCode,
            eps2 := res.train, gameStates2 := res.replay, timeStep := 0 }

/-- String.includes of JavaScript, via splitting on the needle. -/
def containsDeep (a : String) : Bool := decide ((a.splitOn ("deep")).length ≠ 1)

/-- The episode-defaulting useEffect of ModelSelect, run when the agent
selector changes. -/
def epsDefault (agent eps : String) : String :=
  if agent = ("a*") then ("N/A")
  else if containsDeep agent = true ∧ (eps ∈ [("1k"), ("3k"), ("5k")]) = False then ("1k")
  else if (eps ∈ [("50k"), ("75k"), ("100k")]) = False then ("50k")
  else eps

/-- The user events and timer event of the component, each carrying the
data it reads from outside the App state. -/
inductive UiEvent where
  | tick : UiEvent
  | back : UiEvent
  | playPause : UiEvent
  | restartBtn : UiEvent
  | forward : UiEvent
  | speedBtn : UiEvent
  | toggleGrids : UiEvent
  | agentSel1 : String → UiEvent
  | agentSel2 : String → UiEvent
  | epsSel1 : String → UiEvent
  | epsSel2 : String → UiEvent
  | seedEdit1 : String → UiEvent
  | seedEdit2 : String → UiEvent
  | gridSizeSel : Nat → UiEvent
  | load : List GameState → List GameState → UiEvent
  | restore1 : TableResult → UiEvent
  | restore2 : TableResult → UiEvent
deriving Repr, DecidableEq

/-- The raw handler of each event, before the playback useEffect is
reconciled.  The tick branch is the setInterval callback, which exists
only while the effect saw playing with a non-empty lane 1. -/
def applyAction (a : UiEvent) (s : AppState) : AppState :=
  match a with
  | UiEvent.tick =>
      if s.playing = true ∧ s.gameStates1.length ≠ 0 then
        if maxStep s ≤ s.timeStep then { s with playing := false }
        else { s with timeStep := s.timeStep + 1 }
      else s
  | UiEvent.back =>
      { s with playing := false,
               timeStep := if 0 < s.timeStep then s.timeStep - 1 else s.timeStep }
  | UiEvent.playPause =>
      if canStepForward s then { s with playing := !s.playing } else s
  | UiEvent.restartBtn =>
      if canStepForward s then s else { s with playing := false, timeStep := 0 }
  | UiEvent.forward =>
      { s with playing := false,
               timeStep := if s.timeStep < maxStep s then s.timeStep + 1 else s.timeStep }
  | UiEvent.speedBtn =>
      { s with speed := if s.speed = 4 then 1 else s.speed * 2 }
  | UiEvent.toggleGrids => { resetBoard s with twoGrids := !s.twoGrids }
  | UiEvent.agentSel1 a =>
      { resetBoard s with agent1 := a, eps1 := epsDefault a s.eps1 }
  | UiEvent.agentSel2 a =>
      { resetBoard s with agent2 := a, eps2 := epsDefault a s.eps2 }
  | UiEvent.epsSel1 e => { resetBoard s with eps1 := e }
  | UiEvent.epsSel2 e => { resetBoard s with eps2 := e }
  | UiEvent.seedEdit1 v => { s with seed1 := acceptSeed s.seed1 v }
  | UiEvent.seedEdit2 v => { s with seed2 := acceptSeed s.seed2 v }
  | UiEvent.gridSizeSel d => { resetBoard s with gridSize := d }
  | UiEvent.load data1 data2 => loadNewGame s data1 data2
  | UiEvent.restore1 res => restoreGrid1 s res
  | UiEvent.restore2 res => restoreGrid2 s res

/-- The guard of the playback useEffect: when playing was requested with
an empty lane 1, the effect immediately sets playing back to false. -/
def reconcile (s : AppState) : AppState :=
  if s.playing = true ∧ s.gameStates1.length = 0 then { s with playing := false }
  else s

/-- One observable transition of the component: the event handler runs
and then the playback effect reconciles. -/
def step (a : UiEvent) (s : AppState) : AppState := reconcile (applyAction a s)

example : (step UiEvent.forward initState).timeStep = 0 := by decide
example :
    (step (UiEvent.load [defaultGameState, defaultGameState] []) initState).playing
      = true := by decide

/-! ## Helper lemmas -/

lemma jsNumF_foldl_ge (l : List Char) (a : Nat) :
    a * 10 ^ l.length ≤ l.foldl jsNumF a := by
  induction l generalizing a with
  | nil => simp
  | cons c l ih =>
      have h1 : a * 10 ^ (c :: l).length = (a * 10) * 10 ^ l.length := by
        simp [List.length_cons, Nat.pow_succ]
        ring
      have h2 : (a * 10) * 10 ^ l.length ≤ jsNumF a c * 10 ^ l.length := by
        apply Nat.mul_le_mul_right
        unfold jsNumF
        omega
      have h3 : jsNumF a c * 10 ^ l.length ≤ l.foldl jsNumF (jsNumF a c) := ih _
      calc a * 10 ^ (c :: l).length = (a * 10) * 10 ^ l.length := h1
        _ ≤ jsNumF a c * 10 ^ l.length := h2
        _ ≤ l.foldl jsNumF (jsNumF a c) := h3
        _ = (c :: l).foldl jsNumF a := rfl

lemma seed_len_le_three (v : String) (hd : v.data.all isDig = true)
    (hz : ¬(1 < v.data.length ∧ (v.data.headD ' ').toNat = 48))
    (hval : jsNum v ≤ 999) : v.data.length ≤ 3 := by
  by_contra hlen
  push_neg at hlen
  obtain ⟨c, l, hcl⟩ : ∃ c l, v.data = c :: l := by
    cases hv : v.data with
    | nil => rw [hv] at hlen; simp at hlen
    | cons c l => exact ⟨c, l, rfl⟩
  have hdigc : isDig c = true := by
    rw [hcl] at hd
    simp only [List.all_cons, Bool.and_eq_true] at hd
    exact hd.1
  have h48 : 48 ≤ c.toNat ∧ c.toNat ≤ 57 := by simpa [isDig] using hdigc
  have hll : 3 ≤ l.length := by rw [hcl] at hlen; simp at hlen; omega
  have hcnz : c.toNat ≠ 48 := by
    intro hc
    apply hz
    rw [hcl]
    refine ⟨by simp; omega, by simp [hc]⟩
  have hlow : 10 ^ l.length ≤ jsNum v := by
    unfold jsNum
    rw [hcl]
    have e1 : (10 : Nat) ^ l.length = 1 * 10 ^ l.length := by ring
    have e2 : 1 * 10 ^ l.length ≤ jsNumF 0 c * 10 ^ l.length := by
      apply Nat.mul_le_mul_right
      unfold jsNumF
      omega
    calc (10 : Nat) ^ l.length = 1 * 10 ^ l.length := e1
      _ ≤ jsNumF 0 c * 10 ^ l.length := e2
      _ ≤ l.foldl jsNumF (jsNumF 0 c) := jsNumF_foldl_ge l _
      _ = (c :: l).foldl jsNumF 0 := rfl
  have hbig : 1000 ≤ 10 ^ l.length := by
    calc (1000 : Nat) = 10 ^ 3 := by norm_num
      _ ≤ 10 ^ l.length := Nat.pow_le_pow_right (by norm_num) hll
  omega

lemma acceptSeed_preserves (seed v : String) (h : seedValid seed) :
    seedValid (acceptSeed seed v) := by
  unfold acceptSeed
  split_ifs with h1 h2 h3 h4
  · left; rfl
  · exact h
  · exact h
  · exact h
  · right
    have hall : v.data.all isDig = true := by
      revert h2; cases v.data.all isDig <;> simp
    have hne : v.data ≠ [] := by
      intro hd
      apply h1
      cases v with
      | mk d => simp only at hd; rw [hd]
    have hval : jsNum v ≤ 999 := by omega
    have hlen3 : v.data.length ≤ 3 := seed_len_le_three v hall h3 hval
    have hlen1 : 1 ≤ v.data.length := by
      cases hv : v.data with
      | nil => exact absurd hv hne
      | cons c l => simp
    refine ⟨?_, hval⟩
    unfold seedOk
    simp only [Bool.and_eq_true, Bool.or_eq_true, decide_eq_true_eq]
    refine ⟨⟨⟨hall, hlen1⟩, hlen3⟩, ?_⟩
    by_cases hc : 1 < v.data.length
    · right
      intro hhead
      exact h3 ⟨hc, hhead⟩
    · left; omega

lemma foldl_acceptSeed_valid (edits : List String) (s : String)
    (h : seedValid s) : seedValid (List.foldl acceptSeed s edits) := by
  induction edits generalizing s with
  | nil => exact h
  | cons v rest ih => exact ih _ (acceptSeed_preserves s v h)

lemma reconcile_tableRes (s : AppState) : (reconcile s).tableRes = s.tableRes := by
  unfold reconcile
  split_ifs <;> rfl

lemma reconcile_timeStep (s : AppState) : (reconcile s).timeStep = s.timeStep := by
  unfold reconcile
  split_ifs <;> rfl

lemma reconcile_playing_lane (s : AppState) :
    (reconcile s).playing = true → (reconcile s).gameStates1 ≠ [] := by
  unfold reconcile
  split_ifs with h
  · intro hp; simp at hp
  · intro hp
    intro hnil
    apply h
    refine ⟨hp, ?_⟩
    rw [hnil]
    rfl

/-! ## Claim theorems -/

/-- C3: for a non-empty lane the render index used by Grid equals
min(cursor, length - 1), stays within the snapshot list, and an empty
lane renders with no fruit cell and no snake body rather than indexing
out of bounds. -/
theorem effective_render_index (ts : Int) (gs : List GameState) (g i : Nat)
    (hts : 0 ≤ ts) (hne : gs ≠ []) :
    effectiveStep ts gs = min ts ((gs.length : Int) - 1) ∧
    0 ≤ effectiveStep ts gs ∧
    effectiveStep ts gs < (gs.length : Int) ∧
    cellClass g ts [] i ≠ ("bg-red-500") ∧
    snakeIndex ts [] i = -1 := by
  have hlen : 0 < gs.length := List.length_pos.mpr hne
  refine ⟨?_, ?_, ?_, ?_, ?_⟩
  · unfold effectiveStep
    split_ifs with h
    · rw [min_eq_right]; omega
    · rw [min_eq_left]; omega
  · unfold effectiveStep
    split_ifs <;> omega
  · unfold effectiveStep
    split_ifs <;> omega
  · unfold cellClass
    split_ifs with w1 w2 w3
    · decide
    · simp at w2
    · decide
    · decide
  · unfold snakeIndex
    simp

theorem effective_render_index_witness :
    (0 : Int) ≤ 5 ∧ ([defaultGameState] : List GameState) ≠ [] ∧
    (effectiveStep 5 [defaultGameState]
        = min 5 ((([defaultGameState] : List GameState).length : Int) - 1) ∧
      0 ≤ effectiveStep 5 [defaultGameState] ∧
      effectiveStep 5 [defaultGameState] < (([defaultGameState] : List GameState).length : Int) ∧
      cellClass 5 5 [] 6 ≠ ("bg-red-500") ∧
      snakeIndex 5 [] 6 = -1) :=
  ⟨by decide, by decide,
    effective_render_index 5 [defaultGameState] 5 6 (by decide) (by decide)⟩

/-- C7: starting from the empty seed, any sequence of edits leaves the
stored seed either empty or a leading-zero-free digit numeral of at most
three digits denoting an integer in [0, 999]; malformed entries
(non-digits on a non-empty value, leading zeros, values above 999) are
rejected leaving the stored seed unchanged. -/
theorem seed_validation (edits : List String) (seed v : String) :
    seedValid (List.foldl acceptSeed ("") edits) ∧
    (v ≠ ("") → v.data.all isDig = false → acceptSeed seed v = seed) ∧
    (1 < v.data.length ∧ (v.data.headD ' ').toNat = 48 →
       v.data.all isDig = true → acceptSeed seed v = seed) ∧
    (v.data.all isDig = true → 999 < jsNum v → acceptSeed seed v = seed) := by
  refine ⟨foldl_acceptSeed_valid edits ("") (Or.inl rfl), ?_, ?_, ?_⟩
  · intro hv hall
    unfold acceptSeed
    rw [if_neg hv, if_pos hall]
  · intro hzero hall
    have hv : v ≠ ("") := by
      intro h
      rw [h] at hzero
      simp at hzero
    unfold acceptSeed
    rw [if_neg hv, if_neg (by simp [hall]), if_pos hzero]
  · intro hall hbig
    by_cases hv : v = ("")
    · exfalso
      rw [hv] at hbig
      exact absurd hbig (by decide)
    · unfold acceptSeed
      rw [if_neg hv, if_neg (by simp [hall])]
      by_cases hz : 1 < v.data.length ∧ (v.data.headD ' ').toNat = 48
      · rw [if_pos hz]
      · rw [if_neg hz, if_pos hbig]

theorem seed_validation_witness :
    seedValid (List.foldl acceptSeed ("")
        [("a"), ("12"), ("0012"), ("1234"), ("99")]) ∧
    (("abc") ≠ ("")) ∧ (("abc") : String).data.all isDig = false ∧
    acceptSeed ("12") ("abc") = ("12") :=
  ⟨(seed_validation [("a"), ("12"), ("0012"), ("1234"), ("99")] ("12") ("abc")).1,
   by decide, by decide,
   (seed_validation [] ("12") ("abc")).2.1 (by decide) (by decide)⟩

/-- The terminal snapshot of a run list, as accessed by createTableResult
at index data.length - 1. -/
lemma getD_last_eq_getLast (data : List GameState) (hne : data ≠ []) :
    data.getLast? = some (data.getD (data.length - 1) defaultGameState) := by
  have hp : 0 < data.length := List.length_pos.mpr hne
  have h1 : data.length - 1 < data.length := by omega
  rw [List.getLast?_eq_getElem?, List.getD_eq_getElem?_getD,
      List.getElem?_eq_getElem h1]
  rfl

/-- C5: with endIndex = data.length - 1 as passed by loadNewGame, every
summary field of the history row is derived from the terminal snapshot
and its index: moveCount is the terminal index, finalLength the terminal
body length, fruitCount one less, the outcome follows the terminal won
flag, and the average is moveCount over fruitCount plus the 1e-9 floor. -/
theorem createTableResult_terminal (gridSize : Nat) (agent eps : String)
    (data : List GameState) (hne : data ≠ []) :
    (createTableResult gridSize agent eps (data.length - 1) data).moveCount
        = (data.length : Int) - 1 ∧
    (createTableResult gridSize agent eps (data.length - 1) data).finalLength
        = ((data.getD (data.length - 1) defaultGameState).snake.length : Int) ∧
    (createTableResult gridSize agent eps (data.length - 1) data).fruitCount
        = ((data.getD (data.length - 1) defaultGameState).snake.length : Int) - 1 ∧
    (createTableResult gridSize agent eps (data.length - 1) data).outcome
        = (if (data.getD (data.length - 1) defaultGameState).won
           then ("Won") else ("Lost")) ∧
    (createTableResult gridSize agent eps (data.length - 1) data).avgMove
        = ((data.length : Rat) - 1)
            / (((data.getD (data.length - 1) defaultGameState).snake.length : Rat)
                - 1 + 1 / 1000000000) ∧
    data.getLast? = some (data.getD (data.length - 1) defaultGameState) := by
  have hp : 0 < data.length := List.length_pos.mpr hne
  refine ⟨?_, rfl, rfl, rfl, ?_, getD_last_eq_getLast data hne⟩
  · unfold createTableResult
    simp only
    omega
  · unfold createTableResult
    simp only
    rw [Nat.cast_sub hp]
    norm_num

/-- The initial snapshot of the C5 end-to-end scenario. -/
def exInitSnap : GameState := { snake := [12], fruit := 6, won := false, died := false }

/-- The terminal snapshot of the C5 end-to-end scenario. -/
def exTermSnap : GameState := { snake := [12, 11], fruit := 6, won := false, died := true }

/-- The two-snapshot backend response of the C5 end-to-end scenario. -/
def exData : List GameState := [exInitSnap, exTermSnap]

theorem createTableResult_terminal_witness :
    exData ≠ [] ∧
    ((createTableResult 5 ("a*") ("N/A") (exData.length - 1) exData).moveCount
        = (exData.length : Int) - 1 ∧
     (createTableResult 5 ("a*") ("N/A") (exData.length - 1) exData).finalLength
        = ((exData.getD (exData.length - 1) defaultGameState).snake.length : Int) ∧
     (createTableResult 5 ("a*") ("N/A") (exData.length - 1) exData).fruitCount
        = ((exData.getD (exData.length - 1) defaultGameState).snake.length : Int) - 1 ∧
     (createTableResult 5 ("a*") ("N/A") (exData.length - 1) exData).outcome
        = (if (exData.getD (exData.length - 1) defaultGameState).won
           then ("Won") else ("Lost")) ∧
     (createTableResult 5 ("a*") ("N/A") (exData.length - 1) exData).avgMove
        = ((exData.length : Rat) - 1)
            / (((exData.getD (exData.length - 1) defaultGameState).snake.length : Rat)
                - 1 + 1 / 1000000000) ∧
     exData.getLast? = some (exData.getD (exData.length - 1) defaultGameState)) ∧
    (createTableResult 5 ("a*") ("N/A") 1 exData).moveCount = 1 ∧
    (createTableResult 5 ("a*") ("N/A") 1 exData).fruitCount = 1 ∧
    (createTableResult 5 ("a*") ("N/A") 1 exData).finalLength = 2 ∧
    (createTableResult 5 ("a*") ("N/A") 1 exData).outcome = ("Lost") :=
  ⟨by decide, createTableResult_terminal 5 ("a*") ("N/A") exData (by decide),
   by decide, by decide, by decide, by decide⟩

/-- The observable effect of one interval tick while the effect is live. -/
lemma step_tick_eq (s : AppState) (hp : s.playing = true)
    (hne : s.gameStates1.length ≠ 0) :
    step UiEvent.tick s =
      (if maxStep s ≤ s.timeStep then { s with playing := false }
       else { s with timeStep := s.timeStep + 1 }) := by
  simp only [step, applyAction]
  rw [if_pos ⟨hp, hne⟩]
  split_ifs with h
  · unfold reconcile
    rw [if_neg]
    simp
  · unfold reconcile
    rw [if_neg]
    exact fun hc => hne hc.2

/-- C1: while Playing with a loaded lane 1, a tick increments the shared
cursor by exactly 1 when the cursor is strictly below the ceiling, and at
or above the ceiling leaves the cursor unchanged while transitioning to
Stopped; no tick moves the cursor by more than 1, also right after a
speed change. -/
theorem tick_advances_by_one_or_stops (s : AppState)
    (hp : s.playing = true) (hne : s.gameStates1 ≠ []) :
    (s.timeStep < maxStep s →
       (step UiEvent.tick s).timeStep = s.timeStep + 1 ∧
       (step UiEvent.tick s).playing = true) ∧
    (maxStep s ≤ s.timeStep →
       (step UiEvent.tick s).timeStep = s.timeStep ∧
       (step UiEvent.tick s).playing = false) ∧
    s.timeStep ≤ (step UiEvent.tick s).timeStep ∧
    (step UiEvent.tick s).timeStep ≤ s.timeStep + 1 ∧
    (step UiEvent.tick (step UiEvent.speedBtn s)).timeStep ≤ s.timeStep + 1 := by
  have hlen : s.gameStates1.length ≠ 0 := fun h => hne (List.length_eq_zero.mp h)
  have hq := step_tick_eq s hp hlen
  have hsp : step UiEvent.speedBtn s =
      { s with speed := if s.speed = 4 then 1 else s.speed * 2 } := by
    simp only [step, applyAction, reconcile]
    rw [if_neg]
    exact fun hc => hlen hc.2
  have hsp2 : step UiEvent.tick (step UiEvent.speedBtn s) =
      (if maxStep (step UiEvent.speedBtn s) ≤ (step UiEvent.speedBtn s).timeStep
       then { (step UiEvent.speedBtn s) with playing := false }
       else { (step UiEvent.speedBtn s) with
                timeStep := (step UiEvent.speedBtn s).timeStep + 1 }) := by
    apply step_tick_eq
    · rw [hsp]; exact hp
    · rw [hsp]; exact hlen
  refine ⟨?_, ?_, ?_, ?_, ?_⟩
  · intro hlt
    rw [hq, if_neg (by omega)]
    exact ⟨rfl, hp⟩
  · intro hge
    rw [hq, if_pos hge]
    exact ⟨rfl, rfl⟩
  · rw [hq]; split_ifs <;> simp
  · rw [hq]; split_ifs <;> simp
  · rw [hsp2]
    split_ifs <;> (try rw [hsp]) <;> simp

/-- A playing state with three snapshots loaded into lane 1. -/
def wPlaying : AppState :=
  { initState with
    playing := true,
    gameStates1 := [defaultGameState, defaultGameState, defaultGameState] }

theorem tick_advances_witness :
    wPlaying.playing = true ∧ wPlaying.gameStates1 ≠ [] ∧
    ((wPlaying.timeStep < maxStep wPlaying →
        (step UiEvent.tick wPlaying).timeStep = wPlaying.timeStep + 1 ∧
        (step UiEvent.tick wPlaying).playing = true) ∧
     (maxStep wPlaying ≤ wPlaying.timeStep →
        (step UiEvent.tick wPlaying).timeStep = wPlaying.timeStep ∧
        (step UiEvent.tick wPlaying).playing = false) ∧
     wPlaying.timeStep ≤ (step UiEvent.tick wPlaying).timeStep ∧
     (step UiEvent.tick wPlaying).timeStep ≤ wPlaying.timeStep + 1 ∧
     (step UiEvent.tick (step UiEvent.speedBtn wPlaying)).timeStep
        ≤ wPlaying.timeStep + 1) :=
  ⟨rfl, by decide, tick_advances_by_one_or_stops wPlaying rfl (by decide)⟩

/-- C6: the Forward button increments the cursor by 1 exactly when it is
strictly below the ceiling, the Back button decrements by 1 exactly when
it is positive, both force Stopped, and no event ever makes the cursor
negative. -/
theorem step_buttons_clamp_and_stop (s : AppState) :
    (step UiEvent.forward s).playing = false ∧
    (step UiEvent.forward s).timeStep
        = (if s.timeStep < maxStep s then s.timeStep + 1 else s.timeStep) ∧
    (step UiEvent.back s).playing = false ∧
    (step UiEvent.back s).timeStep
        = (if 0 < s.timeStep then s.timeStep - 1 else s.timeStep) ∧
    (∀ e : UiEvent, 0 ≤ s.timeStep → 0 ≤ (step e s).timeStep) := by
  refine ⟨?_, ?_, ?_, ?_, ?_⟩
  · simp [step, applyAction, reconcile]
  · simp [step, applyAction, reconcile]
  · simp [step, applyAction, reconcile]
  · simp [step, applyAction, reconcile]
  · intro e he
    have hstep : (step e s).timeStep = (applyAction e s).timeStep :=
      reconcile_timeStep _
    rw [hstep]
    cases e <;>
      simp only [applyAction, resetBoard, loadNewGame, restoreGrid1,
        restoreGrid2] <;>
      (try split_ifs) <;> (try simp) <;> omega

theorem step_buttons_witness :
    (0 : Int) ≤ initState.timeStep ∧ 0 ≤ (step UiEvent.back initState).timeStep :=
  ⟨by decide, (step_buttons_clamp_and_stop initState).2.2.2.2 UiEvent.back (by decide)⟩

lemma reconcile_of_playing_false (s : AppState) (h : s.playing = false) :
    reconcile s = s := by
  unfold reconcile
  rw [if_neg]
  simp [h]

lemma reconcile_of_empty_playing (s : AppState) (hp : s.playing = true)
    (h : s.gameStates1.length = 0) : reconcile s = { s with playing := false } := by
  unfold reconcile
  rw [if_pos ⟨hp, h⟩]

lemma step_playPause_eq (s : AppState) :
    step UiEvent.playPause s =
      (if canStepForward s then reconcile { s with playing := !s.playing }
       else reconcile s) := by
  simp only [step, applyAction]
  split_ifs <;> rfl

/-- C9: the play control moves Stopped to Playing only when lane 1 is
non-empty and the cursor is strictly below the ceiling; otherwise it is
a no-op or is immediately reconciled back to Stopped; after any event
Playing implies lane 1 is non-empty; at the ceiling the exposed control
is a restart that zeroes the cursor and stays Stopped. -/
theorem play_transition_guarded (s : AppState) :
    (s.playing = false → (step UiEvent.playPause s).playing = true →
       s.gameStates1 ≠ [] ∧ s.timeStep < maxStep s) ∧
    (s.playing = false → s.gameStates1 = [] ∨ ¬ s.timeStep < maxStep s →
       (step UiEvent.playPause s).playing = false) ∧
    (∀ e : UiEvent, (step e s).playing = true → (step e s).gameStates1 ≠ []) ∧
    (¬ s.timeStep < maxStep s →
       (step UiEvent.restartBtn s).playing = false ∧
       (step UiEvent.restartBtn s).timeStep = 0) ∧
    initState.playing = false := by
  refine ⟨?_, ?_, ?_, ?_, rfl⟩
  · intro hstop hplay
    rw [step_playPause_eq] at hplay
    by_cases hcan : canStepForward s
    · rw [if_pos hcan] at hplay
      refine ⟨?_, hcan⟩
      intro hnil
      rw [reconcile_of_empty_playing _ (by simp [hstop]) (by simp [hnil])] at hplay
      simp at hplay
    · rw [if_neg hcan, reconcile_of_playing_false s hstop] at hplay
      exact absurd hplay (by simp [hstop])
  · intro hstop hbad
    rw [step_playPause_eq]
    by_cases hcan : canStepForward s
    · rw [if_pos hcan]
      cases hbad with
      | inl hnil =>
          rw [reconcile_of_empty_playing _ (by simp [hstop]) (by simp [hnil])]
      | inr hc => exact absurd hcan hc
    · rw [if_neg hcan, reconcile_of_playing_false s hstop]
      exact hstop
  · intro e
    exact reconcile_playing_lane (applyAction e s)
  · intro hcan
    have hcan2 : ¬ canStepForward s := hcan
    simp only [step, applyAction]
    rw [if_neg hcan2, reconcile_of_playing_false _ rfl]
    exact ⟨rfl, rfl⟩

/-- A stopped state with two snapshots loaded into lane 1. -/
def wStopped : AppState :=
  { initState with gameStates1 := [defaultGameState, defaultGameState] }

theorem play_transition_witness :
    wStopped.playing = false ∧ (step UiEvent.playPause wStopped).playing = true ∧
    (wStopped.gameStates1 ≠ [] ∧ wStopped.timeStep < maxStep wStopped) :=
  ⟨rfl, by decide, (play_transition_guarded wStopped).1 rfl (by decide)⟩

lemma step_restore1_eq (s : AppState) (res : TableResult) :
    step (UiEvent.restore1 res) s = restoreGrid1 s res := by
  have hp : (restoreGrid1 s res).playing = false := by
    simp only [restoreGrid1]
    split_ifs <;> rfl
  exact reconcile_of_playing_false _ hp

lemma step_restore2_eq (s : AppState) (res : TableResult) :
    step (UiEvent.restore2 res) s = restoreGrid2 s res := by
  have hp : (restoreGrid2 s res).playing = false := by
    simp only [restoreGrid2]
    split_ifs <;> rfl
  exact reconcile_of_playing_false _ hp

/-- C2: restoring a history row into either lane copies its snapshot
sequence, agent and training configuration into that lane, adopts its
grid dimension, zeroes the cursor and stops playback; restoring into
lane 2 activates the second lane; and when the row's dimension differs
from the active one the sibling lane is overwritten with the same
sequence, so both lanes hold the restored run's data. -/
theorem restore_entry_semantics (s : AppState) (res : TableResult) :
    ((step (UiEvent.restore1 res) s).gameStates1 = res.replay ∧
     (step (UiEvent.restore1 res) s).agent1 = res.agentCode ∧
     (step (UiEvent.restore1 res) s).eps1 = res.train ∧
     (step (UiEvent.restore1 res) s).gridSize = res.replaySize ∧
     (step (UiEvent.restore1 res) s).timeStep = 0 ∧
     (step (UiEvent.restore1 res) s).playing = false) ∧
    ((step (UiEvent.restore2 res) s).gameStates2 = res.replay ∧
     (step (UiEvent.restore2 res) s).agent2 = res.agentCode ∧
     (step (UiEvent.restore2 res) s).eps2 = res.train ∧
     (step (UiEvent.restore2 res) s).gridSize = res.replaySize ∧
     (step (UiEvent.restore2 res) s).timeStep = 0 ∧
     (step (UiEvent.restore2 res) s).playing = false ∧
     (step (UiEvent.restore2 res) s).twoGrids = true) ∧
    (s.gridSize ≠ res.replaySize →
       (step (UiEvent.restore1 res) s).gameStates2 = res.replay ∧
       (step (UiEvent.restore2 res) s).gameStates1 = res.replay) := by
  rw [step_restore1_eq, step_restore2_eq]
  simp only [restoreGrid1, restoreGrid2]
  split_ifs with h <;> simp_all

/-- A history row whose stored grid dimension 7 differs from the initial
dimension 5. -/
def exEntry : TableResult :=
  { agent := ("A*"), gridSize := ("5x5"), train := ("N/A"), moveCount := 1,
    fruitCount := 1, finalLength := 2, avgMove := 0, outcome := ("Lost"),
    replay := [defaultGameState], agentCode := ("a*"), replaySize := 7 }

theorem restore_entry_witness :
    initState.gridSize ≠ exEntry.replaySize ∧
    ((step (UiEvent.restore1 exEntry) initState).gameStates2 = exEntry.replay ∧
     (step (UiEvent.restore2 exEntry) initState).gameStates1 = exEntry.replay) :=
  ⟨by decide, (restore_entry_semantics initState exEntry).2.2 (by decide)⟩

/-- C10: restoring a mismatched-dimension row into lane 1 overwrites
lane 2's snapshot sequence but leaves lane 2's agent and training
configuration, its seed, and the second-lane toggle untouched; the
hidden lane 2 data still enters the playback ceiling, which becomes the
restored run's length minus one. -/
theorem restore1_mismatch_frame (s : AppState) (res : TableResult)
    (h : s.gridSize ≠ res.replaySize) :
    (step (UiEvent.restore1 res) s).gameStates2 = res.replay ∧
    (step (UiEvent.restore1 res) s).agent2 = s.agent2 ∧
    (step (UiEvent.restore1 res) s).eps2 = s.eps2 ∧
    (step (UiEvent.restore1 res) s).seed2 = s.seed2 ∧
    (step (UiEvent.restore1 res) s).twoGrids = s.twoGrids ∧
    maxStep (step (UiEvent.restore1 res) s)
      = (Nat.max (step (UiEvent.restore1 res) s).gameStates1.length
          (step (UiEvent.restore1 res) s).gameStates2.length : Int) - 1 ∧
    maxStep (step (UiEvent.restore1 res) s) = (res.replay.length : Int) - 1 := by
  rw [step_restore1_eq]
  simp only [restoreGrid1]
  rw [if_pos h]
  exact ⟨rfl, rfl, rfl, rfl, rfl, rfl, by simp [maxStep]⟩

theorem restore1_mismatch_witness :
    initState.gridSize ≠ exEntry.replaySize ∧
    ((step (UiEvent.restore1 exEntry) initState).gameStates2 = exEntry.replay ∧
     (step (UiEvent.restore1 exEntry) initState).agent2 = initState.agent2 ∧
     (step (UiEvent.restore1 exEntry) initState).eps2 = initState.eps2 ∧
     (step (UiEvent.restore1 exEntry) initState).seed2 = initState.seed2 ∧
     (step (UiEvent.restore1 exEntry) initState).twoGrids = initState.twoGrids ∧
     maxStep (step (UiEvent.restore1 exEntry) initState)
       = (Nat.max (step (UiEvent.restore1 exEntry) initState).gameStates1.length
           (step (UiEvent.restore1 exEntry) initState).gameStates2.length : Int) - 1 ∧
     maxStep (step (UiEvent.restore1 exEntry) initState)
       = (exEntry.replay.length : Int) - 1) :=
  ⟨by decide, restore1_mismatch_frame initState exEntry (by decide)⟩

/-- C8: the ledger is append-only and newest-first: every event leaves
the previous ledger as a suffix of the new one, and a completed load
prepends exactly the freshly created row per involved lane (the lane 2
row on top when both lanes load), deleting, mutating, or reordering
nothing. -/
theorem ledger_append_only (s : AppState) (e : UiEvent)
    (d1 d2 : List GameState) :
    List.IsSuffix s.tableRes (step e s).tableRes ∧
    (step (UiEvent.load d1 d2) s).tableRes =
      (if s.twoGrids
       then [createTableResult s.gridSize s.agent2 s.eps2 (d2.length - 1) d2,
             createTableResult s.gridSize s.agent1 s.eps1 (d1.length - 1) d1]
       else [createTableResult s.gridSize s.agent1 s.eps1 (d1.length - 1) d1])
        ++ s.tableRes ∧
    (step (UiEvent.load d1 d2) s).tableRes.length
      = s.tableRes.length + (if s.twoGrids then 2 else 1) := by
  have key : ∀ a, (step a s).tableRes = (applyAction a s).tableRes :=
    fun a => reconcile_tableRes _
  refine ⟨?_, ?_, ?_⟩
  · rw [key]
    cases e <;>
      simp only [applyAction, resetBoard, loadNewGame, restoreGrid1,
        restoreGrid2] <;>
      (try split_ifs) <;>
      first
        | exact List.suffix_refl _
        | exact List.suffix_cons _ _
        | exact (List.suffix_cons _ _).trans (List.suffix_cons _ _)
  · rw [key]
    simp only [applyAction, loadNewGame]
    split_ifs <;> rfl
  · rw [key]
    simp only [applyAction, loadNewGame]
    split_ifs <;> simp [List.length_cons]

/-- A state holding loaded run data, a positive cursor, and live
playback, used to exhibit what a seed edit leaves untouched. -/
def cState : AppState :=
  { initState with
    gameStates1 := [defaultGameState, defaultGameState],
    gameStates2 := [defaultGameState],
    playing := true,
    timeStep := 1 }

/-- C4 counterexample: editing the seed of lane 1 in a state with loaded
runs, a positive cursor and live playback updates the stored seed but
clears neither lane, keeps the cursor at 1 and keeps playing — the seed
handler never calls resetBoard. -/
theorem seed_edit_does_not_clear :
    (step (UiEvent.seedEdit1 ("7")) cState).seed1 = ("7") ∧
    (step (UiEvent.seedEdit1 ("7")) cState).gameStates1 ≠ [] ∧
    (step (UiEvent.seedEdit1 ("7")) cState).gameStates2 ≠ [] ∧
    (step (UiEvent.seedEdit1 ("7")) cState).timeStep = 1 ∧
    (step (UiEvent.seedEdit1 ("7")) cState).playing = true := by decide

lemma step_eq_of_playing_false (e : UiEvent) (s : AppState)
    (h : (applyAction e s).playing = false) : step e s = applyAction e s :=
  reconcile_of_playing_false _ h

lemma reconcile_gameStates1 (s : AppState) :
    (reconcile s).gameStates1 = s.gameStates1 := by
  unfold reconcile
  split_ifs <;> rfl

lemma reconcile_gameStates2 (s : AppState) :
    (reconcile s).gameStates2 = s.gameStates2 := by
  unfold reconcile
  split_ifs <;> rfl

lemma reconcile_seed1 (s : AppState) : (reconcile s).seed1 = s.seed1 := by
  unfold reconcile
  split_ifs <;> rfl

lemma reconcile_agent1 (s : AppState) : (reconcile s).agent1 = s.agent1 := by
  unfold reconcile
  split_ifs <;> rfl

lemma reconcile_eps1 (s : AppState) : (reconcile s).eps1 = s.eps1 := by
  unfold reconcile
  split_ifs <;> rfl

/-- Both lanes cleared, the cursor zeroed and auto-play stopped, as
resetBoard leaves them. -/
def lanesCleared (s : AppState) : Prop :=
  s.gameStates1 = [] ∧ s.gameStates2 = [] ∧ s.timeStep = 0 ∧ s.playing = false

/-- C4 amended: changing the agent, the training budget, the grid
dimension, or toggling the second lane clears both lanes, zeroes the
shared cursor and stops auto-play, while the clearing itself preserves
the agent, training, and seed values; editing the seed clears nothing
and resets nothing — it only updates the stored seed through the
validator. -/
theorem invalidating_controls_clear_lanes (s : AppState) (a e v : String)
    (d : Nat) :
    lanesCleared (step (UiEvent.agentSel1 a) s) ∧
    lanesCleared (step (UiEvent.agentSel2 a) s) ∧
    lanesCleared (step (UiEvent.epsSel1 e) s) ∧
    lanesCleared (step (UiEvent.epsSel2 e) s) ∧
    lanesCleared (step (UiEvent.gridSizeSel d) s) ∧
    lanesCleared (step UiEvent.toggleGrids s) ∧
    (step (UiEvent.agentSel1 a) s).agent1 = a ∧
    (step (UiEvent.epsSel1 e) s).eps1 = e ∧
    (step (UiEvent.gridSizeSel d) s).gridSize = d ∧
    (step (UiEvent.agentSel1 a) s).seed1 = s.seed1 ∧
    (step (UiEvent.agentSel1 a) s).seed2 = s.seed2 ∧
    (step (UiEvent.epsSel1 e) s).seed1 = s.seed1 ∧
    (step (UiEvent.gridSizeSel d) s).seed1 = s.seed1 ∧
    (step UiEvent.toggleGrids s).seed1 = s.seed1 ∧
    (resetBoard s).agent1 = s.agent1 ∧ (resetBoard s).agent2 = s.agent2 ∧
    (resetBoard s).eps1 = s.eps1 ∧ (resetBoard s).eps2 = s.eps2 ∧
    (resetBoard s).seed1 = s.seed1 ∧ (resetBoard s).seed2 = s.seed2 ∧
    (step (UiEvent.seedEdit1 v) s).gameStates1 = s.gameStates1 ∧
    (step (UiEvent.seedEdit1 v) s).gameStates2 = s.gameStates2 ∧
    (step (UiEvent.seedEdit1 v) s).timeStep = s.timeStep ∧
    (step (UiEvent.seedEdit1 v) s).seed1 = acceptSeed s.seed1 v ∧
    (step (UiEvent.seedEdit1 v) s).agent1 = s.agent1 ∧
    (step (UiEvent.seedEdit1 v) s).eps1 = s.eps1 := by
  have h1 := step_eq_of_playing_false (UiEvent.agentSel1 a) s rfl
  have h2 := step_eq_of_playing_false (UiEvent.agentSel2 a) s rfl
  have h3 := step_eq_of_playing_false (UiEvent.epsSel1 e) s rfl
  have h4 := step_eq_of_playing_false (UiEvent.epsSel2 e) s rfl
  have h5 := step_eq_of_playing_false (UiEvent.gridSizeSel d) s rfl
  have h6 := step_eq_of_playing_false UiEvent.toggleGrids s rfl
  rw [h1, h2, h3, h4, h5, h6]
  refine ⟨⟨rfl, rfl, rfl, rfl⟩, ⟨rfl, rfl, rfl, rfl⟩, ⟨rfl, rfl, rfl, rfl⟩,
    ⟨rfl, rfl, rfl, rfl⟩, ⟨rfl, rfl, rfl, rfl⟩, ⟨rfl, rfl, rfl, rfl⟩,
    rfl, rfl, rfl, rfl, rfl, rfl, rfl, rfl, rfl, rfl, rfl, rfl, rfl, rfl,
    reconcile_gameStates1 _, reconcile_gameStates2 _, reconcile_timeStep _,
    reconcile_seed1 _, reconcile_agent1 _, reconcile_eps1 _⟩
